import Mathlib

/-!
Shallow embedding of `AzureChatMistralAI`
(src/libs/partners/mistralai/langchain_mistralai/chat_models/azure.py),
a subclass of `ChatMistralAI` that adapts the Mistral chat client to
Azure-hosted endpoints.  Environment reads, pydantic field population and
the `model_validator(mode="after")` hook are made explicit; Python `float`
is modelled by `ℚ`, Python `str`-or-`None` by `Option String`, and a raised
`ValueError` by `Except.error`.
-/

namespace AzureMistral

/-- Python truthiness of a `str`-or-`None` value: `None` and the empty
string are falsy, every other string is truthy (used by the
`self.azure_endpoint or os.environ.get(...) or None` chain). -/
def truthyStr : Option String → Bool
  | none => false
  | some s => s != ""

/-- Python f-string interpolation of a `str`-or-`None` value:
`None` renders as the four-character string `"None"`. -/
def fstr : Option String → String
  | none => "None"
  | some s => s

/-- The three environment variables the adapter reads; `none` means the
variable is unset, `some v` that it is set to `v` (possibly empty). -/
structure Env where
  AZURE_MISTRAL_ENDPOINT : Option String
  AZURE_MISTRAL_API_KEY : Option String
  MISTRAL_API_KEY : Option String
deriving Repr, DecidableEq

/-- Modelled from the spec: `langchain_core.utils.from_env` (code of this
repository outside src/) returns the environment variable's value when the
variable is set, else the supplied default, which is `None` here. -/
def from_env (envVal : Option String) : Option String := envVal

/-- Modelled from the spec: `langchain_core.utils.secret_from_env` (code of
this repository outside src/) applied to
`["AZURE_MISTRAL_API_KEY", "MISTRAL_API_KEY"]` checks the variables in
priority order and returns the value of the first one that is set, else the
supplied default, which is `None` here. -/
def secret_from_env (env : Env) : Option String :=
  match env.AZURE_MISTRAL_API_KEY with
  | some v => some v
  | none => env.MISTRAL_API_KEY

/-- An `httpx.Client` / `httpx.AsyncClient` handle as observable through the
arguments the adapter constructs it with. -/
structure ClientHandle where
  isAsync : Bool
  base_url : String
  headers : List (String × String)
  timeout : ℚ
deriving Repr, DecidableEq

/-- The `httpx.Client(...)` / `httpx.AsyncClient(...)` construction in
`validate_environment` (azure.py lines 148-166): bound to the resolved base
URL, with JSON content/accept headers and a bearer `Authorization` header
interpolating the resolved API key. -/
def mkHttpxClient (isAsync : Bool) (base_url : String) (api_key_str : Option String)
    (timeout : ℚ) : ClientHandle :=
  { isAsync := isAsync
    base_url := base_url
    headers := [("Content-Type", "application/json"),
                ("Accept", "application/json"),
                ("Authorization", "Bearer " ++ fstr api_key_str)]
    timeout := timeout }

/-- The fields of an `AzureChatMistralAI` instance that the adapter code
reads or writes.  `mistral_api_key` is the extracted secret value
(`SecretStr.get_secret_value` yields the wrapped string, so the wrapper is
transparent here).  `endpoint`, `client` and `async_client` are inherited
from `ChatMistralAI` (code of this repository outside src/); per the spec
they start unset and the client handles are lazily constructed. -/
structure AzureChatMistralAI where
  azure_endpoint : Option String
  mistral_api_key : Option String
  endpoint : Option String
  client : Option ClientHandle
  async_client : Option ClientHandle
  model : Option String
  temperature : Option ℚ
  max_tokens : Option Int
  top_p : Option ℚ
  random_seed : Option Int
  timeout : ℚ
deriving Repr, DecidableEq

/-- Pydantic field population at construction time (azure.py lines 95-112):
an explicit argument value is used when supplied (`some v`), otherwise the
field's `default_factory` reads the environment — `from_env` for
`azure_endpoint`, `secret_from_env` for `mistral_api_key`.  The inherited
`endpoint`, `client` and `async_client` fields start unset; the remaining
inherited completion parameters are passed through. -/
def mkAzureChatMistralAI (env : Env) (azure_endpoint api_key : Option String)
    (model : Option String) (temperature top_p : Option ℚ)
    (max_tokens random_seed : Option Int) (timeout : ℚ) : AzureChatMistralAI :=
  { azure_endpoint :=
      match azure_endpoint with
      | some v => some v
      | none => from_env env.AZURE_MISTRAL_ENDPOINT
    mistral_api_key :=
      match api_key with
      | some v => some v
      | none => secret_from_env env
    endpoint := none
    client := none
    async_client := none
    model := model
    temperature := temperature
    max_tokens := max_tokens
    top_p := top_p
    random_seed := random_seed
    timeout := timeout }

/-- `v is not None and not 0 <= v <= 1` — the range check applied to
`temperature` and `top_p` in `validate_environment` (azure.py 168-172). -/
def outOfRange01 : Option ℚ → Bool
  | none => false
  | some x => if 0 ≤ x ∧ x ≤ 1 then false else true

/-- `AzureChatMistralAI.validate_environment` (azure.py lines 129-174), the
`model_validator(mode="after")` hook.  Resolves the base URL through the
Python truthiness chain `self.azure_endpoint or os.environ.get
("AZURE_MISTRAL_ENDPOINT") or None`, raises `ValueError` when it is falsy,
stores it into `self.endpoint`, constructs each missing client handle
(guarded by `if not self.client` / `if not self.async_client`), then
validates `temperature` and `top_p` against `[0, 1]`.  A raised `ValueError`
is `Except.error` carrying the message; the returned `self` is `Except.ok`. -/
def validate_environment (env : Env) (s : AzureChatMistralAI) :
    Except String AzureChatMistralAI :=
  let api_key_str : Option String := s.mistral_api_key
  let base_url_str : Option String :=
    if truthyStr s.azure_endpoint then s.azure_endpoint
    else if truthyStr env.AZURE_MISTRAL_ENDPOINT then env.AZURE_MISTRAL_ENDPOINT
    else none
  match base_url_str with
  | none => Except.error "Must set AZURE_MISTRAL_ENDPOINT"
  | some url =>
    let s1 := { s with endpoint := some url }
    let s2 :=
      if s1.client.isNone then
        { s1 with client := some (mkHttpxClient false url api_key_str s1.timeout) }
      else s1
    let s3 :=
      if s2.async_client.isNone then
        { s2 with async_client := some (mkHttpxClient true url api_key_str s2.timeout) }
      else s2
    if outOfRange01 s3.temperature then
      Except.error "temperature must be in the range [0.0, 1.0]"
    else if outOfRange01 s3.top_p then
      Except.error "top_p must be in the range [0.0, 1.0]"
    else Except.ok s3

/-- A Python value occurring in the parameter dictionaries. -/
inductive PyVal where
  | none
  | str (s : String)
  | rat (q : ℚ)
  | int (n : Int)
deriving Repr, DecidableEq

/-- A `str`-or-`None` field as a dictionary value. -/
def pyOfStr : Option String → PyVal
  | Option.none => PyVal.none
  | some s => PyVal.str s

/-- A `float`-or-`None` field as a dictionary value. -/
def pyOfRat : Option ℚ → PyVal
  | Option.none => PyVal.none
  | some q => PyVal.rat q

/-- An `int`-or-`None` field as a dictionary value. -/
def pyOfInt : Option Int → PyVal
  | Option.none => PyVal.none
  | some n => PyVal.int n

/-- A Python `dict` with string keys, as its insertion-ordered entry list
(Python dicts preserve insertion order and keep keys unique). -/
abbrev PyDict := List (String × PyVal)

/-- Lookup of the first entry with the given key. -/
def dictGet : PyDict → String → Option PyVal
  | [], _ => Option.none
  | kv :: rest, k => if kv.1 = k then some kv.2 else dictGet rest k

/-- Python `d[k] = v`: overwrite the entry when `k` is already a key of `d`,
else append the new entry at the end. -/
def dictSet (d : PyDict) (k : String) (v : PyVal) : PyDict :=
  if d.any (fun kv => decide (kv.1 = k)) then
    d.map (fun kv => if kv.1 = k then (k, v) else kv)
  else d ++ [(k, v)]

/-- The `**e` spread inside a dict display starting from `d`: each entry of
`e` is assigned into `d` in order, overwriting on key collision (so on a
shared key the value coming from `e` wins). -/
def dictUpdate (d e : PyDict) : PyDict :=
  e.foldl (fun acc kv => dictSet acc kv.1 kv.2) d

/-- `AzureChatMistralAI._default_params` (azure.py lines 176-187): the five
candidate entries in source order, filtered to drop any entry whose value is
`None`. -/
def _default_params (s : AzureChatMistralAI) : PyDict :=
  let defaults : PyDict :=
    [("model", pyOfStr s.model),
     ("temperature", pyOfRat s.temperature),
     ("max_tokens", pyOfInt s.max_tokens),
     ("top_p", pyOfRat s.top_p),
     ("random_seed", pyOfInt s.random_seed)]
  defaults.filter (fun kv => decide (kv.2 ≠ PyVal.none))

/-- `AzureChatMistralAI._identifying_params` (azure.py lines 189-195): the
dict display `{"azure_endpoint": self.azure_endpoint,
**super()._identifying_params}` — the adapter's entry is written first and
the base mapping is spread into it afterwards.  The base class lives outside
src/, so its mapping is a parameter. -/
def _identifying_params (base : PyDict) (s : AzureChatMistralAI) : PyDict :=
  dictUpdate [("azure_endpoint", pyOfStr s.azure_endpoint)] base

/-- `AzureChatMistralAI._create_message_dicts` (azure.py lines 211-217):
calls `super()._create_message_dicts(messages, stop)` and returns its result
unchanged.  The base class's builder lives outside src/, so it is a
parameter. -/
def _create_message_dicts {Msg MsgDict Params : Type}
    (base : List Msg → Option (List String) → List MsgDict × Params)
    (messages : List Msg) (stop : Option (List String)) : List MsgDict × Params :=
  base messages stop

/-- The base-URL resolution chain of `validate_environment`:
`self.azure_endpoint or os.environ.get("AZURE_MISTRAL_ENDPOINT") or None`. -/
def resolvedBaseUrl (env : Env) (s : AzureChatMistralAI) : Option String :=
  if truthyStr s.azure_endpoint then s.azure_endpoint
  else if truthyStr env.AZURE_MISTRAL_ENDPOINT then env.AZURE_MISTRAL_ENDPOINT
  else none

/-- The state after `validate_environment` has stored the resolved endpoint
and run both guarded client constructions (azure.py lines 146-166). -/
def afterClients (s : AzureChatMistralAI) (url : String) : AzureChatMistralAI :=
  let s1 := { s with endpoint := some url }
  let s2 :=
    if s1.client.isNone then
      { s1 with client := some (mkHttpxClient false url s.mistral_api_key s1.timeout) }
    else s1
  if s2.async_client.isNone then
    { s2 with async_client := some (mkHttpxClient true url s.mistral_api_key s2.timeout) }
  else s2

/-- `validate_environment` refactored into its three phases; proved equal to
the embedding below and used to reason about it. -/
def validateSpec (env : Env) (s : AzureChatMistralAI) :
    Except String AzureChatMistralAI :=
  match resolvedBaseUrl env s with
  | none => Except.error "Must set AZURE_MISTRAL_ENDPOINT"
  | some url =>
    if outOfRange01 s.temperature then
      Except.error "temperature must be in the range [0.0, 1.0]"
    else if outOfRange01 s.top_p then
      Except.error "top_p must be in the range [0.0, 1.0]"
    else Except.ok (afterClients s url)

deriving instance DecidableEq for Except

/-- An environment with no variable set. -/
def envAllUnset : Env := ⟨Option.none, Option.none, Option.none⟩

/-- An instance configured with an explicit endpoint and an explicit
conflicting base mapping, used to examine `_identifying_params`. -/
def sC1 : AzureChatMistralAI :=
  mkAzureChatMistralAI envAllUnset (some "https://mine.example/") Option.none
    Option.none Option.none Option.none Option.none Option.none 120

/-- A base identifying-parameters mapping that itself carries an
`azure_endpoint` key with a conflicting value. -/
def baseC1 : PyDict := [("azure_endpoint", PyVal.str "https://base.example/")]

/-- An environment whose endpoint variable is set. -/
def envC3 : Env := ⟨some "https://env.example/", Option.none, Option.none⟩

/-- An instance whose explicit `azure_endpoint` is present but empty. -/
def sC3 : AzureChatMistralAI :=
  mkAzureChatMistralAI envC3 (some "") Option.none Option.none Option.none
    Option.none Option.none Option.none 120

/-- An instance with an explicit non-empty endpoint and no other fields. -/
def sC3w : AzureChatMistralAI :=
  mkAzureChatMistralAI envAllUnset (some "https://mine.example/") Option.none
    Option.none Option.none Option.none Option.none Option.none 120

/-- An environment with both credential variables set. -/
def envC4 : Env := ⟨some "https://x.example/", some "a", some "b"⟩

/-- An environment with only the endpoint variable set. -/
def envC5 : Env := ⟨some "https://x.example/", Option.none, Option.none⟩

/-- An instance with out-of-range temperature, endpoint from the
environment. -/
def sC5 : AzureChatMistralAI :=
  mkAzureChatMistralAI envC5 Option.none Option.none Option.none (some 2)
    Option.none Option.none Option.none 120

/-- A freshly populated instance with endpoint from the environment. -/
def sC6 : AzureChatMistralAI :=
  mkAzureChatMistralAI envC5 Option.none Option.none Option.none Option.none
    Option.none Option.none Option.none 120

/-- The state after the first `validate_environment` run on `sC6`. -/
def sC6a : AzureChatMistralAI := afterClients sC6 "https://x.example/"

/-- The state after the second `validate_environment` run. -/
def sC6b : AzureChatMistralAI := afterClients sC6a "https://x.example/"

/-- A fully absent configuration: no endpoint anywhere. -/
def sC9 : AzureChatMistralAI :=
  mkAzureChatMistralAI envAllUnset Option.none Option.none Option.none
    Option.none Option.none Option.none Option.none 120

/-- A keyless instance with resolvable endpoint and in-range parameters. -/
def sC10 : AzureChatMistralAI :=
  mkAzureChatMistralAI envC5 Option.none Option.none Option.none Option.none
    Option.none Option.none Option.none 120

/-- A keyless instance with resolvable endpoint and temperature 2. -/
def sC10bad : AzureChatMistralAI :=
  mkAzureChatMistralAI envC5 Option.none Option.none Option.none (some 2)
    Option.none Option.none Option.none 120

theorem truthyStr_iff (o : Option String) :
    truthyStr o = true ↔ ∃ u, o = some u ∧ u ≠ "" := by
  cases o with
  | none => simp [truthyStr]
  | some s => simp [truthyStr]

theorem afterClients_temperature (s : AzureChatMistralAI) (url : String) :
    (afterClients s url).temperature = s.temperature := by
  unfold afterClients
  by_cases hc : s.client.isNone <;> by_cases ha : s.async_client.isNone <;>
    simp [hc, ha]

theorem afterClients_top_p (s : AzureChatMistralAI) (url : String) :
    (afterClients s url).top_p = s.top_p := by
  unfold afterClients
  by_cases hc : s.client.isNone <;> by_cases ha : s.async_client.isNone <;>
    simp [hc, ha]

theorem afterClients_endpoint (s : AzureChatMistralAI) (url : String) :
    (afterClients s url).endpoint = some url := by
  unfold afterClients
  by_cases hc : s.client.isNone <;> by_cases ha : s.async_client.isNone <;>
    simp [hc, ha]

theorem afterClients_client_of_some (s : AzureChatMistralAI) (url : String)
    (c : ClientHandle) (h : s.client = some c) :
    (afterClients s url).client = some c := by
  unfold afterClients
  by_cases ha : s.async_client.isNone <;> simp [h, ha]

theorem afterClients_async_of_some (s : AzureChatMistralAI) (url : String)
    (a : ClientHandle) (h : s.async_client = some a) :
    (afterClients s url).async_client = some a := by
  unfold afterClients
  by_cases hc : s.client.isNone <;> simp [h, hc]

theorem afterClients_client_of_none (s : AzureChatMistralAI) (url : String)
    (h : s.client = Option.none) :
    (afterClients s url).client =
      some (mkHttpxClient false url s.mistral_api_key s.timeout) := by
  unfold afterClients
  by_cases ha : s.async_client.isNone <;> simp [h, ha]

theorem afterClients_async_of_none (s : AzureChatMistralAI) (url : String)
    (h : s.async_client = Option.none) :
    (afterClients s url).async_client =
      some (mkHttpxClient true url s.mistral_api_key s.timeout) := by
  unfold afterClients
  by_cases hc : s.client.isNone <;> simp [h, hc]

theorem afterClients_client_isSome (s : AzureChatMistralAI) (url : String) :
    (afterClients s url).client.isSome = true := by
  cases h : s.client with
  | none => rw [afterClients_client_of_none s url h] ; rfl
  | some c => rw [afterClients_client_of_some s url c h] ; rfl

theorem afterClients_async_isSome (s : AzureChatMistralAI) (url : String) :
    (afterClients s url).async_client.isSome = true := by
  cases h : s.async_client with
  | none => rw [afterClients_async_of_none s url h] ; rfl
  | some a => rw [afterClients_async_of_some s url a h] ; rfl

theorem validate_environment_eq_spec (env : Env) (s : AzureChatMistralAI) :
    validate_environment env s = validateSpec env s := by
  unfold validate_environment validateSpec resolvedBaseUrl afterClients
  cases h1 : truthyStr s.azure_endpoint <;>
    cases h2 : truthyStr env.AZURE_MISTRAL_ENDPOINT <;> simp only [if_pos, if_neg,
      Bool.false_eq_true, not_false_iff, ite_true, ite_false]
  all_goals
    first
    | (cases h3 : env.AZURE_MISTRAL_ENDPOINT with
       | none => simp [truthyStr, h3] at h2
       | some u =>
         by_cases hc : s.client.isNone <;> by_cases ha : s.async_client.isNone <;>
           simp [hc, ha])
    | (cases h3 : s.azure_endpoint with
       | none => simp [truthyStr, h3] at h1
       | some u =>
         by_cases hc : s.client.isNone <;> by_cases ha : s.async_client.isNone <;>
           simp [hc, ha])

theorem outOfRange01_eq_true_iff (v : Option ℚ) :
    outOfRange01 v = true ↔ ∃ x, v = some x ∧ ¬(0 ≤ x ∧ x ≤ 1) := by
  cases v with
  | none => simp [outOfRange01]
  | some x =>
    by_cases hx : 0 ≤ x ∧ x ≤ 1
    · simp [outOfRange01, hx]
    · simp only [outOfRange01, hx, if_false]
      exact iff_of_true trivial ⟨x, rfl, hx⟩

theorem outOfRange01_eq_false_iff (v : Option ℚ) :
    outOfRange01 v = false ↔ ∀ x, v = some x → 0 ≤ x ∧ x ≤ 1 := by
  cases v with
  | none => simp [outOfRange01]
  | some x =>
    by_cases hx : 0 ≤ x ∧ x ≤ 1
    · simp [outOfRange01, hx]
    · simp only [outOfRange01, hx, if_false]
      simp only [Option.some.injEq, Bool.true_eq_false, false_iff]
      intro hall
      exact hx (hall x rfl)

theorem validate_ok_iff (env : Env) (s s' : AzureChatMistralAI) :
    validate_environment env s = Except.ok s' ↔
      ∃ url, resolvedBaseUrl env s = some url ∧
        outOfRange01 s.temperature = false ∧ outOfRange01 s.top_p = false ∧
        s' = afterClients s url := by
  rw [validate_environment_eq_spec]
  unfold validateSpec
  cases hurl : resolvedBaseUrl env s with
  | none => simp
  | some url =>
    cases hb1 : outOfRange01 s.temperature <;>
      cases hb2 : outOfRange01 s.top_p <;> simp [hb1, hb2, eq_comm]

theorem validate_error_exists_iff (env : Env) (s : AzureChatMistralAI) :
    (∃ e, validate_environment env s = Except.error e) ↔
      resolvedBaseUrl env s = Option.none ∨
        outOfRange01 s.temperature = true ∨ outOfRange01 s.top_p = true := by
  rw [validate_environment_eq_spec]
  unfold validateSpec
  cases hurl : resolvedBaseUrl env s with
  | none => simp
  | some url =>
    cases hb1 : outOfRange01 s.temperature <;>
      cases hb2 : outOfRange01 s.top_p <;> simp [hb1, hb2]

theorem resolvedBaseUrl_eq_none_iff (env : Env) (s : AzureChatMistralAI) :
    resolvedBaseUrl env s = Option.none ↔
      truthyStr s.azure_endpoint = false ∧
        truthyStr env.AZURE_MISTRAL_ENDPOINT = false := by
  unfold resolvedBaseUrl
  cases h1 : truthyStr s.azure_endpoint with
  | true =>
    rcases (truthyStr_iff _).mp h1 with ⟨u, hu, _⟩
    simp [h1, hu]
  | false =>
    cases h2 : truthyStr env.AZURE_MISTRAL_ENDPOINT with
    | true =>
      rcases (truthyStr_iff _).mp h2 with ⟨u, hu, _⟩
      simp [h1, h2, hu]
    | false => simp [h1, h2]

theorem resolvedBaseUrl_isSome_of_truthy (env : Env) (s : AzureChatMistralAI)
    (h : truthyStr s.azure_endpoint = true ∨
      truthyStr env.AZURE_MISTRAL_ENDPOINT = true) :
    ∃ url, resolvedBaseUrl env s = some url := by
  unfold resolvedBaseUrl
  cases h1 : truthyStr s.azure_endpoint with
  | true =>
    rcases (truthyStr_iff _).mp h1 with ⟨u, hu, _⟩
    exact ⟨u, by simp [hu]⟩
  | false =>
    have h2 : truthyStr env.AZURE_MISTRAL_ENDPOINT = true := by
      rcases h with h | h
      · rw [h1] at h
        cases h
      · exact h
    rcases (truthyStr_iff _).mp h2 with ⟨u, hu, hne⟩
    exact ⟨u, by simp [hu, truthyStr, hne]⟩

theorem dictGet_eq_none_of_not_mem (d : PyDict) (k : String)
    (h : k ∉ d.map Prod.fst) :
    dictGet d k = Option.none := by
  induction d with
  | nil => rfl
  | cons a t ih =>
    simp only [List.map_cons, List.mem_cons] at h
    push_neg at h
    have hne : ¬ a.1 = k := fun hh => h.1 hh.symm
    simp only [dictGet, if_neg hne]
    exact ih h.2

theorem dictGet_append_single_self (d : PyDict) (k : String) (v : PyVal)
    (h : d.any (fun kv => decide (kv.1 = k)) = false) :
    dictGet (d ++ [(k, v)]) k = some v := by
  induction d with
  | nil => simp [dictGet]
  | cons a t ih =>
    simp only [List.any_cons, Bool.or_eq_false_iff, decide_eq_false_iff_not] at h
    simp only [List.cons_append, dictGet, h.1, if_false]
    exact ih (by simpa using h.2)

theorem dictGet_append_single_ne (d : PyDict) (k k' : String) (v : PyVal)
    (h : k' ≠ k) :
    dictGet (d ++ [(k, v)]) k' = dictGet d k' := by
  induction d with
  | nil =>
    simp only [List.nil_append, dictGet]
    rw [if_neg (fun hh : k = k' => h hh.symm)]
  | cons a t ih =>
    simp only [List.cons_append, dictGet]
    by_cases hk' : a.1 = k'
    · rw [if_pos hk', if_pos hk']
    · rw [if_neg hk', if_neg hk']
      exact ih

theorem dictGet_overwrite_self (d : PyDict) (k : String) (v : PyVal)
    (h : d.any (fun kv => decide (kv.1 = k)) = true) :
    dictGet (d.map (fun kv => if kv.1 = k then (k, v) else kv)) k = some v := by
  induction d with
  | nil => simp at h
  | cons a t ih =>
    by_cases hk : a.1 = k
    · simp [List.map_cons, hk, dictGet]
    · have ht : t.any (fun kv => decide (kv.1 = k)) = true := by
        simpa [List.any_cons, hk] using h
      simp only [List.map_cons, if_neg hk, dictGet, if_neg hk]
      exact ih ht

theorem dictGet_overwrite_ne (d : PyDict) (k k' : String) (v : PyVal)
    (h : k' ≠ k) :
    dictGet (d.map (fun kv => if kv.1 = k then (k, v) else kv)) k' =
      dictGet d k' := by
  induction d with
  | nil => rfl
  | cons a t ih =>
    by_cases hk : a.1 = k
    · have hk' : ¬ a.1 = k' := by
        rw [hk]
        exact fun hh => h hh.symm
      have hkk' : ¬ k = k' := fun hh => h hh.symm
      simp only [List.map_cons, if_pos hk, dictGet, if_neg hk', if_neg hkk']
      exact ih
    · simp only [List.map_cons, if_neg hk, dictGet]
      by_cases hk' : a.1 = k'
      · rw [if_pos hk', if_pos hk']
      · rw [if_neg hk', if_neg hk']
        exact ih

theorem dictGet_dictSet_self (d : PyDict) (k : String) (v : PyVal) :
    dictGet (dictSet d k v) k = some v := by
  unfold dictSet
  cases h : d.any (fun kv => decide (kv.1 = k)) with
  | true => simpa using dictGet_overwrite_self d k v h
  | false => simpa using dictGet_append_single_self d k v h

theorem dictGet_dictSet_ne (d : PyDict) (k k' : String) (v : PyVal)
    (h : k' ≠ k) :
    dictGet (dictSet d k v) k' = dictGet d k' := by
  unfold dictSet
  cases hany : d.any (fun kv => decide (kv.1 = k)) with
  | true => simpa using dictGet_overwrite_ne d k k' v h
  | false => simpa using dictGet_append_single_ne d k k' v h

theorem dictGet_dictUpdate (e d : PyDict) (k : String)
    (h : (e.map Prod.fst).Nodup) :
    dictGet (dictUpdate d e) k =
      match dictGet e k with
      | some v => some v
      | Option.none => dictGet d k := by
  induction e generalizing d with
  | nil => simp [dictUpdate, dictGet]
  | cons a t ih =>
    simp only [List.map_cons, List.nodup_cons] at h
    have step : dictUpdate d (a :: t) = dictUpdate (dictSet d a.1 a.2) t := rfl
    rw [step, ih _ h.2]
    by_cases hk : a.1 = k
    · have hnone : dictGet t k = Option.none :=
        dictGet_eq_none_of_not_mem t k (hk ▸ h.1)
      rw [hnone]
      simp only [dictGet, if_pos hk]
      exact hk ▸ dictGet_dictSet_self d a.1 a.2
    · simp only [dictGet, if_neg hk]
      cases ht : dictGet t k with
      | none => exact dictGet_dictSet_ne d a.1 k a.2 (fun hh => hk hh.symm)
      | some w => rfl

/-- Claim C1, counterexample: for the validated instance configured with
`azure_endpoint = "https://mine.example/"` and a base identifying-parameters
mapping carrying a conflicting `azure_endpoint`, the merged mapping holds
the base value, not the adapter's — the adapter's value does NOT take
precedence on collision. -/
theorem C1_counterexample :
    (validate_environment envAllUnset sC1).toOption.map
        (fun s' => dictGet (_identifying_params baseC1 s') "azure_endpoint") =
      some (some (PyVal.str "https://base.example/")) ∧
    (validate_environment envAllUnset sC1).toOption.map
        (fun s' => s'.azure_endpoint) = some (some "https://mine.example/") ∧
    PyVal.str "https://base.example/" ≠ PyVal.str "https://mine.example/" := by
  decide

/-- Claim C1 (amended): for every base mapping with distinct keys, the
identifying-parameters mapping always contains the key `azure_endpoint`;
on a key collision the BASE mapping's value takes precedence, and the
adapter's configured value is used exactly when the base mapping lacks the
key. -/
theorem C1_identifying_params (base : PyDict) (s : AzureChatMistralAI)
    (hbase : (base.map Prod.fst).Nodup) :
    (dictGet (_identifying_params base s) "azure_endpoint").isSome = true ∧
    (∀ v, dictGet base "azure_endpoint" = some v →
      dictGet (_identifying_params base s) "azure_endpoint" = some v) ∧
    (dictGet base "azure_endpoint" = Option.none →
      dictGet (_identifying_params base s) "azure_endpoint" =
        some (pyOfStr s.azure_endpoint)) := by
  unfold _identifying_params
  rw [dictGet_dictUpdate base _ _ hbase]
  cases hb : dictGet base "azure_endpoint" with
  | none => simp [dictGet]
  | some v => simp

/-- Witness for C1: at a concrete conflicting base mapping the merged value
is the base's. -/
theorem C1_witness :
    dictGet (_identifying_params baseC1 sC1) "azure_endpoint" =
      some (PyVal.str "https://base.example/") :=
  (C1_identifying_params baseC1 sC1 (by decide)).2.1 _ (by decide)

/-- Claim C2: with no explicit endpoint field and `AZURE_MISTRAL_ENDPOINT`
unset, `validate_environment` raises a `ValueError` whose message mentions
`AZURE_MISTRAL_ENDPOINT`, and no initialized instance is produced. -/
theorem C2_missing_endpoint (env : Env) (api_key model : Option String)
    (temperature top_p : Option ℚ) (max_tokens random_seed : Option Int)
    (timeout : ℚ) (henv : env.AZURE_MISTRAL_ENDPOINT = Option.none) :
    ∃ msg,
      validate_environment env
          (mkAzureChatMistralAI env Option.none api_key model temperature
            top_p max_tokens random_seed timeout) = Except.error msg ∧
      (∃ pre post, msg = pre ++ "AZURE_MISTRAL_ENDPOINT" ++ post) ∧
      ∀ s', validate_environment env
          (mkAzureChatMistralAI env Option.none api_key model temperature
            top_p max_tokens random_seed timeout) ≠ Except.ok s' := by
  have herr : validate_environment env
      (mkAzureChatMistralAI env Option.none api_key model temperature top_p
        max_tokens random_seed timeout) =
      Except.error "Must set AZURE_MISTRAL_ENDPOINT" := by
    rw [validate_environment_eq_spec]
    unfold validateSpec
    have hres : resolvedBaseUrl env
        (mkAzureChatMistralAI env Option.none api_key model temperature top_p
          max_tokens random_seed timeout) = Option.none := by
      rw [resolvedBaseUrl_eq_none_iff]
      constructor
      · simp [mkAzureChatMistralAI, from_env, henv, truthyStr]
      · simp [henv, truthyStr]
    rw [hres]
  refine ⟨"Must set AZURE_MISTRAL_ENDPOINT", herr,
    ⟨"Must set ", "", by decide⟩, ?_⟩
  intro s' hok
  rw [herr] at hok
  cases hok

/-- Witness for C2: the all-unset environment triggers the error. -/
theorem C2_witness :
    ∃ msg,
      validate_environment envAllUnset
          (mkAzureChatMistralAI envAllUnset Option.none Option.none Option.none
            Option.none Option.none Option.none Option.none 120) =
          Except.error msg ∧
      (∃ pre post, msg = pre ++ "AZURE_MISTRAL_ENDPOINT" ++ post) ∧
      ∀ s', validate_environment envAllUnset
          (mkAzureChatMistralAI envAllUnset Option.none Option.none Option.none
            Option.none Option.none Option.none Option.none 120) ≠
          Except.ok s' :=
  C2_missing_endpoint envAllUnset Option.none Option.none Option.none
    Option.none Option.none Option.none 120 (by decide)

/-- Claim C3, counterexample: with an explicit but empty `azure_endpoint`
field (present, truthiness-falsy) and the environment variable set,
validation succeeds and resolves the endpoint to the environment value, not
the present explicit field value. -/
theorem C3_counterexample :
    sC3.azure_endpoint = some "" ∧
    (validate_environment envC3 sC3).toOption.map (fun s' => s'.endpoint) =
      some (some "https://env.example/") ∧
    (some "https://env.example/" : Option String) ≠ some "" := by
  decide

/-- Claim C3 (amended): on success the resolved endpoint is stored into the
instance's `endpoint` field; it equals the explicit `azure_endpoint` field
value when that value is truthy (present and non-empty), and otherwise the
`AZURE_MISTRAL_ENDPOINT` environment value, which is then necessarily
truthy. -/
theorem C3_endpoint_resolution (env : Env) (s s' : AzureChatMistralAI)
    (h : validate_environment env s = Except.ok s') :
    (truthyStr s.azure_endpoint = true → s'.endpoint = s.azure_endpoint) ∧
    (truthyStr s.azure_endpoint = false →
      truthyStr env.AZURE_MISTRAL_ENDPOINT = true ∧
        s'.endpoint = env.AZURE_MISTRAL_ENDPOINT) := by
  rcases (validate_ok_iff env s s').mp h with ⟨url, hurl, _, _, hs'⟩
  subst hs'
  unfold resolvedBaseUrl at hurl
  constructor
  · intro ht
    rw [if_pos ht] at hurl
    rw [afterClients_endpoint, hurl]
  · intro hf
    have hf' : ¬ truthyStr s.azure_endpoint = true := by simp [hf]
    rw [if_neg hf'] at hurl
    by_cases h2 : truthyStr env.AZURE_MISTRAL_ENDPOINT = true
    · rw [if_pos h2] at hurl
      exact ⟨h2, by rw [afterClients_endpoint, hurl]⟩
    · rw [if_neg h2] at hurl
      cases hurl

/-- Witness for C3: a concrete explicit endpoint is stored verbatim. -/
theorem C3_witness :
    (afterClients sC3w "https://mine.example/").endpoint = sC3w.azure_endpoint :=
  (C3_endpoint_resolution envAllUnset sC3w
      (afterClients sC3w "https://mine.example/") (by decide)).1 (by decide)

/-- Claim C4: with no explicit `api_key`, the default factory resolves the
credential from `AZURE_MISTRAL_API_KEY` when that variable is set — even if
`MISTRAL_API_KEY` is also set — and from `MISTRAL_API_KEY` only when the
Azure-specific variable is unset. -/
theorem C4_api_key_priority (env : Env) (azure_endpoint model : Option String)
    (temperature top_p : Option ℚ) (max_tokens random_seed : Option Int)
    (timeout : ℚ) :
    (∀ a, env.AZURE_MISTRAL_API_KEY = some a →
      (mkAzureChatMistralAI env azure_endpoint Option.none model temperature
        top_p max_tokens random_seed timeout).mistral_api_key = some a) ∧
    (env.AZURE_MISTRAL_API_KEY = Option.none →
      (mkAzureChatMistralAI env azure_endpoint Option.none model temperature
        top_p max_tokens random_seed timeout).mistral_api_key =
        env.MISTRAL_API_KEY) := by
  constructor
  · intro a ha
    simp [mkAzureChatMistralAI, secret_from_env, ha]
  · intro ha
    simp [mkAzureChatMistralAI, secret_from_env, ha]

/-- Witness for C4: with both variables set the Azure one wins. -/
theorem C4_witness :
    (mkAzureChatMistralAI envC4 Option.none Option.none Option.none
      Option.none Option.none Option.none Option.none 120).mistral_api_key =
      some "a" :=
  (C4_api_key_priority envC4 Option.none Option.none Option.none Option.none
    Option.none Option.none 120).1 "a" (by decide)

/-- Claim C5: with a resolvable endpoint, `validate_environment` fails if
and only if a present `temperature` or a present `top_p` lies outside
`[0, 1]`; absent values and the boundaries are accepted. -/
theorem C5_range_validation (env : Env) (s : AzureChatMistralAI)
    (h : truthyStr s.azure_endpoint = true ∨
      truthyStr env.AZURE_MISTRAL_ENDPOINT = true) :
    (∃ e, validate_environment env s = Except.error e) ↔
      ((∃ t, s.temperature = some t ∧ ¬(0 ≤ t ∧ t ≤ 1)) ∨
       (∃ p, s.top_p = some p ∧ ¬(0 ≤ p ∧ p ≤ 1))) := by
  rw [validate_error_exists_iff]
  rcases resolvedBaseUrl_isSome_of_truthy env s h with ⟨url, hurl⟩
  simp [hurl, outOfRange01_eq_true_iff]

/-- Witness for C5: temperature 2 fails validation. -/
theorem C5_witness :
    ∃ e, validate_environment envC5 sC5 = Except.error e :=
  (C5_range_validation envC5 sC5 (Or.inr (by decide))).mpr
    (Or.inl ⟨2, by decide, by decide⟩)

/-- Claim C6: a second `validate_environment` run on an already-initialized
instance leaves both existing client handles unchanged — each construction
is guarded, so the hook is idempotent on the handles. -/
theorem C6_idempotent (env1 env2 : Env) (s s1 s2 : AzureChatMistralAI)
    (h1 : validate_environment env1 s = Except.ok s1)
    (h2 : validate_environment env2 s1 = Except.ok s2) :
    s2.client = s1.client ∧ s2.async_client = s1.async_client := by
  rcases (validate_ok_iff env1 s s1).mp h1 with ⟨u1, _, _, _, hs1⟩
  rcases (validate_ok_iff env2 s1 s2).mp h2 with ⟨u2, _, _, _, hs2⟩
  subst hs1
  subst hs2
  cases hc : (afterClients s u1).client with
  | none =>
    have hsome := afterClients_client_isSome s u1
    rw [hc] at hsome
    cases hsome
  | some c =>
    cases ha : (afterClients s u1).async_client with
    | none =>
      have hsome := afterClients_async_isSome s u1
      rw [ha] at hsome
      cases hsome
    | some a =>
      simp [afterClients_client_of_some _ _ c hc,
        afterClients_async_of_some _ _ a ha, hc, ha]

/-- Witness for C6: two concrete consecutive runs keep the handles. -/
theorem C6_witness :
    sC6b.client = sC6a.client ∧ sC6b.async_client = sC6a.async_client :=
  C6_idempotent envC5 envC5 sC6 sC6a sC6b (by decide) (by decide)

/-- Claim C7: `_default_params` is exactly the mapping over the keys
`model`, `temperature`, `max_tokens`, `top_p`, `random_seed` restricted to
the fields that are present; absent keys never appear. -/
theorem C7_default_params (s : AzureChatMistralAI) (k : String) (v : PyVal) :
    (k, v) ∈ _default_params s ↔
      (k = "model" ∧ ∃ m, s.model = some m ∧ v = PyVal.str m) ∨
      (k = "temperature" ∧ ∃ t, s.temperature = some t ∧ v = PyVal.rat t) ∨
      (k = "max_tokens" ∧ ∃ n, s.max_tokens = some n ∧ v = PyVal.int n) ∨
      (k = "top_p" ∧ ∃ p, s.top_p = some p ∧ v = PyVal.rat p) ∨
      (k = "random_seed" ∧ ∃ r, s.random_seed = some r ∧ v = PyVal.int r) := by
  rcases s with ⟨ae, key, ep, cl, acl, model, temp, mt, tp, rs, tout⟩
  rcases model with _ | m <;> rcases temp with _ | t <;> rcases mt with _ | n <;>
    rcases tp with _ | p <;> rcases rs with _ | r <;>
      simp [_default_params, pyOfStr, pyOfRat, pyOfInt, List.mem_filter,
        eq_comm]

/-- Claim C8: the overridden `_create_message_dicts` is a pure passthrough:
it returns exactly what the base implementation's builder returns on the
same inputs, for every base builder, message list and stop list. -/
theorem C8_create_message_dicts {Msg MsgDict Params : Type}
    (base : List Msg → Option (List String) → List MsgDict × Params)
    (messages : List Msg) (stop : Option (List String)) :
    _create_message_dicts base messages stop = base messages stop := rfl

/-- Claim C9: `validate_environment` returns an error exactly for a missing
endpoint, an out-of-range temperature, or an out-of-range top_p; an error
result excludes any initialized instance (`Except.error` carries no state,
so no client handle of an aborted run is reachable). -/
theorem C9_error_atomicity (env : Env) (s : AzureChatMistralAI) :
    ((∃ e, validate_environment env s = Except.error e) ↔
      ((truthyStr s.azure_endpoint = false ∧
        truthyStr env.AZURE_MISTRAL_ENDPOINT = false) ∨
       (∃ t, s.temperature = some t ∧ ¬(0 ≤ t ∧ t ≤ 1)) ∨
       (∃ p, s.top_p = some p ∧ ¬(0 ≤ p ∧ p ≤ 1)))) ∧
    ∀ e, validate_environment env s = Except.error e →
      ∀ s', validate_environment env s ≠ Except.ok s' := by
  constructor
  · rw [validate_error_exists_iff, ← resolvedBaseUrl_eq_none_iff]
    simp [outOfRange01_eq_true_iff]
  · intro e he s' hok
    rw [he] at hok
    cases hok

/-- Witness for C9: the all-unset configuration errors. -/
theorem C9_witness :
    ∃ e, validate_environment envAllUnset sC9 = Except.error e :=
  (C9_error_atomicity envAllUnset sC9).1.mpr (Or.inl (by decide))

/-- Claim C10, counterexample: a configuration with a resolvable endpoint
and no resolvable API key does NOT always succeed — with temperature 2 it
raises a configuration error, refuting the claim's universal success. -/
theorem C10_counterexample :
    sC10bad.mistral_api_key = Option.none ∧
    resolvedBaseUrl envC5 sC10bad ≠ Option.none ∧
    validate_environment envC5 sC10bad =
      Except.error "temperature must be in the range [0.0, 1.0]" := by
  decide

/-- Claim C10 (amended): with a resolvable endpoint, no resolvable API key,
unconstructed client handles, and in-range-or-absent temperature and top_p,
`validate_environment` succeeds — a missing credential is never a
configuration error — and both constructed client handles carry the literal
`Authorization` header value `Bearer None`. -/
theorem C10_missing_key (env : Env) (s : AzureChatMistralAI)
    (hkey : s.mistral_api_key = Option.none)
    (hc : s.client = Option.none) (ha : s.async_client = Option.none)
    (hep : truthyStr s.azure_endpoint = true ∨
      truthyStr env.AZURE_MISTRAL_ENDPOINT = true)
    (htemp : ∀ t, s.temperature = some t → 0 ≤ t ∧ t ≤ 1)
    (htop : ∀ p, s.top_p = some p → 0 ≤ p ∧ p ≤ 1) :
    ∃ s', validate_environment env s = Except.ok s' ∧
      (∃ ch, s'.client = some ch ∧
        ("Authorization", "Bearer None") ∈ ch.headers) ∧
      (∃ ah, s'.async_client = some ah ∧
        ("Authorization", "Bearer None") ∈ ah.headers) := by
  rcases resolvedBaseUrl_isSome_of_truthy env s hep with ⟨url, hurl⟩
  have hok : validate_environment env s = Except.ok (afterClients s url) :=
    (validate_ok_iff env s _).mpr
      ⟨url, hurl, (outOfRange01_eq_false_iff _).mpr htemp,
        (outOfRange01_eq_false_iff _).mpr htop, rfl⟩
  have hhdr : ("Authorization", "Bearer None") =
      ("Authorization", "Bearer " ++ fstr Option.none) := rfl
  refine ⟨afterClients s url, hok, ?_, ?_⟩
  · refine ⟨mkHttpxClient false url s.mistral_api_key s.timeout,
      afterClients_client_of_none s url hc, ?_⟩
    rw [hkey, hhdr]
    unfold mkHttpxClient
    exact List.mem_cons.mpr (Or.inr (List.mem_cons.mpr (Or.inr
      (List.mem_cons.mpr (Or.inl rfl)))))
  · refine ⟨mkHttpxClient true url s.mistral_api_key s.timeout,
      afterClients_async_of_none s url ha, ?_⟩
    rw [hkey, hhdr]
    unfold mkHttpxClient
    exact List.mem_cons.mpr (Or.inr (List.mem_cons.mpr (Or.inr
      (List.mem_cons.mpr (Or.inl rfl)))))

/-- Witness for C10: a concrete keyless configuration succeeds with the
`Bearer None` header on both handles. -/
theorem C10_witness :
    ∃ s', validate_environment envC5 sC10 = Except.ok s' ∧
      (∃ ch, s'.client = some ch ∧
        ("Authorization", "Bearer None") ∈ ch.headers) ∧
      (∃ ah, s'.async_client = some ah ∧
        ("Authorization", "Bearer None") ∈ ah.headers) :=
  C10_missing_key envC5 sC10 (by decide) (by decide) (by decide)
    (Or.inr (by decide)) (by decide) (by decide)

end AzureMistral
